import Mathlib

/-!
Verification development for the yangson fragment (datamodel.py, constants.py,
json_schema.py).  Pure Python functions are embedded as Lean functions; the
stateful schema-tree build is embedded as explicit state passing.  Components
of the repository whose sources are not available (schemanode.py, schemadata.py,
instance.py, exceptions.py, enumerations.py) are modelled from the spec, each
such definition carrying a doc comment that says so.
-/

/-- JSON-like values, the result of deserializing JSON text (stdlib json). -/
inductive JValue where
  | null
  | bool (b : Bool)
  | num (n : Int)
  | str (s : String)
  | arr (xs : List JValue)
  | obj (kvs : List (String × JValue))

/-- Association-list lookup, modelling Python dict key lookup. -/
def alistGet {α : Type} : List (String × α) → String → Option α
  | [], _ => none
  | (k, v) :: rest, key => if k == key then some v else alistGet rest key

/-- Association-list update, modelling Python dict item assignment: replace the
value if the key is present (keeping its position), otherwise append. -/
def alistSet {α : Type} : List (String × α) → String → α → List (String × α)
  | [], key, v => [(key, v)]
  | (k, w) :: rest, key, v =>
    if k == key then (k, v) :: rest else (k, w) :: alistSet rest key v

/-- Lookup of a member of a JSON object value. -/
def jGet (v : JValue) (key : String) : Option JValue :=
  match v with
  | .obj kvs => alistGet kvs key
  | _ => none

/-- Modelled from the spec: the content-type filter of enumerations.py (absent
from src): configuration-only data versus all (config + operational) data. -/
inductive ContentType where
  | config
  | nonconfig
  | all

/-- Modelled from the spec: a node of the per-module statement tree produced by
the external statement parser (statement.py, absent from src): keyword,
argument and the list of substatements. -/
inductive Statement where
  | mk (keyword : String) (argument : String) (substmts : List Statement)

/-- Keyword of a statement. -/
def Statement.keyword : Statement → String
  | .mk kw _ _ => kw

/-- Argument of a statement. -/
def Statement.argument : Statement → String
  | .mk _ a _ => a

/-- Substatements of a statement. -/
def Statement.substmts : Statement → List Statement
  | .mk _ _ ss => ss

/-- Modelled from the spec: find_all returns the direct substatements with the
given keyword (statement.py, absent from src). -/
def Statement.find_all (s : Statement) (kw : String) : List Statement :=
  s.substmts.filter (fun st => st.keyword == kw)

/-- Module identifier: module name and revision. -/
abbrev ModuleId := String × String

/-- Modelled from the spec: SchemaData (schemadata.py, absent from src) keeps
the library descriptor, the module search path, the module sequence in
dependency order, each module statement tree, and the namespace map. -/
structure SchemaData where
  yang_library : List (String × JValue)
  mod_path : List String
  module_sequence : List ModuleId
  modules : ModuleId → Statement
  namespaces : ModuleId → String

/-- Modelled from the spec: extraction of the implemented module identifiers
from the library descriptor (module name and revision of each entry of the
module list under the modules-state member). -/
def moduleNames (yl : List (String × JValue)) : List ModuleId :=
  match alistGet yl "ietf-yang-library:modules-state" with
  | some (.obj ms) =>
    match alistGet ms "module" with
    | some (.arr mods) =>
      mods.filterMap (fun m =>
        match m with
        | .obj fields =>
          match alistGet fields "name", alistGet fields "revision" with
          | some (.str n), some (.str r) => some (n, r)
          | some (.str n), _ => some (n, "")
          | _, _ => none
        | _ => none)
    | _ => []
  | _ => []

/-- Modelled from the spec: SchemaData construction (schemadata.py, absent from
src) records the descriptor and search path and derives the module sequence;
the statement trees and namespaces come from the external module parser, kept
abstract here as constant maps. -/
def SchemaData.make (yl : List (String × JValue)) (mod_path : List String) :
    SchemaData :=
  ⟨yl, mod_path, moduleNames yl, fun _ => ⟨"module", "", []⟩, fun _ => ""⟩

/-- Modelled from the spec: a data-bearing schema node (schemanode.py, absent
from src): qualified name (local name and namespace), config flag, and the
ordered children. -/
inductive SchemaNode where
  | mk (name : String) (ns : String) (config : Bool) (children : List SchemaNode)

/-- Local name of a schema node. -/
def SchemaNode.name : SchemaNode → String
  | .mk n _ _ _ => n

/-- Namespace of a schema node. -/
def SchemaNode.ns : SchemaNode → String
  | .mk _ s _ _ => s

/-- Config flag of a schema node. -/
def SchemaNode.config : SchemaNode → Bool
  | .mk _ _ c _ => c

/-- Children of a schema node. -/
def SchemaNode.children : SchemaNode → List SchemaNode
  | .mk _ _ _ ch => ch

/-- Modelled from the spec: get_data_child (schemanode.py, absent from src)
looks the named data child up among the children, comparing both components of
the qualified name. -/
def SchemaNode.get_data_child (n : SchemaNode) (name ns : String) :
    Option SchemaNode :=
  n.children.find? (fun c => c.name == name && c.ns == ns)

/-- Modelled from the spec: node_digest (schemanode.py, absent from src)
produces a condensed summary of a node: its config flag and the names of its
data children. -/
def SchemaNode.node_digest (n : SchemaNode) : List (String × JValue) :=
  [("config", .bool n.config),
   ("nodes", .arr (n.children.map (fun c => .str c.name)))]

/-- Datastore: container for a datastore schema (datamodel.py), pairing the
schema tree and schema data with a content type. -/
structure Datastore where
  content_type : ContentType
  schema : SchemaNode
  schema_data : SchemaData

/-- Route: the parsed form of a data path, one (name, namespace) pair per
segment, as produced by path2route (schemadata.py, absent from src). -/
abbrev Route := List (String × String)

/-- The loop body of Datastore.get_data_node (datamodel.py): step from the
current node one route segment at a time; a failed child lookup returns none
immediately. -/
def walkRoute : SchemaNode → Route → Option SchemaNode
  | node, [] => some node
  | node, (name, ns) :: rest =>
    match node.get_data_child name ns with
    | none => none
    | some child => walkRoute child rest

/-- Datastore.get_data_node (datamodel.py) on an already-parsed route: walk the
route from the schema root; path2route, which parses the textual data path into
the route, lives in schemadata.py (absent from src). -/
def Datastore.get_data_node (ds : Datastore) (addr : Route) :
    Option SchemaNode :=
  walkRoute ds.schema addr

/-- Datastore.schema_digest (datamodel.py): take the node digest of the schema
root and set its member "config" to true; serialization of the resulting
object by json.dumps is stdlib and not modelled. -/
def Datastore.schema_digest (ds : Datastore) : JValue :=
  .obj (alistSet ds.schema.node_digest "config" (.bool true))

/-- Error kinds raised during model construction.  Modelled from the spec and
the imports in json_schema.py (exceptions.py is absent from src); in the
sources available, both library-data failures raise BadYangLibraryData. -/
inductive YangsonError where
  | BadYangLibraryData (msg : String)
  | FeaturePrerequisiteError (msg : String)
  | MultipleImplementedRevisions (msg : String)
  | ModuleNotFound (msg : String)
  | ModuleNotRegistered (msg : String)

/-- Name of the exception class of an error, the one piece of information a
Python except clause can dispatch on. -/
def YangsonError.kindName : YangsonError → String
  | .BadYangLibraryData _ => "BadYangLibraryData"
  | .FeaturePrerequisiteError _ => "FeaturePrerequisiteError"
  | .MultipleImplementedRevisions _ => "MultipleImplementedRevisions"
  | .ModuleNotFound _ => "ModuleNotFound"
  | .ModuleNotRegistered _ => "ModuleNotRegistered"

/-- Outcome of running json.loads (stdlib, external) on the library text:
either a decode error carrying the decoder message, or a parsed top-level
object (the key/value members). -/
inductive LibText where
  | malformed (msg : String)
  | parsed (kvs : List (String × JValue))

/-- DataModel: the top-level object (datamodel.py): datastore map, optional
description, and the raw library descriptor. -/
structure DataModel where
  datastores : List (String × Datastore)
  description : Option String
  yang_library : List (String × JValue)

/-- Modelled from the spec: the schema tree produced for datastore use by
SchemaTreeNode() plus DataModel._build_schema; the phase structure of the
build itself is embedded separately as DataModel.build_schema below. -/
def buildRoot (sdata : SchemaData) : SchemaNode :=
  .mk "" "" true
    (sdata.module_sequence.map (fun m => .mk m.1 (sdata.namespaces m) true []))

/-- DataModel.__init__ (datamodel.py): a json.loads failure raises
BadYangLibraryData with the decoder message; with the modules-state marker
present, one schema tree and one schema data object are built and shared by
the "config" and "operational" datastores; without the marker,
BadYangLibraryData "top-level member not recognized" is raised. -/
def DataModel.init (yltxt : LibText) (mod_path : List String)
    (description : Option String) : Except YangsonError DataModel :=
  match yltxt with
  | .malformed e => .error (.BadYangLibraryData e)
  | .parsed kvs =>
    if (alistGet kvs "ietf-yang-library:modules-state").isSome then
      let sdata := SchemaData.make kvs mod_path
      let root := buildRoot sdata
      .ok ⟨[("config", ⟨.config, root, sdata⟩),
            ("operational", ⟨.all, root, sdata⟩)],
           description, kvs⟩
    else
      .error (.BadYangLibraryData "top-level member not recognized")

/-- DataModel.content_id (datamodel.py): the digest computation is commented
out in the source; the function returns the constant string TODO. -/
def DataModel.content_id (_dm : DataModel) : String := "TODO"

/-- The kind of the error of a failed construction, none on success. -/
def initErrKind (r : Except YangsonError DataModel) : Option String :=
  match r with
  | .error e => some e.kindName
  | .ok _ => none

/-- Operations applied to the shared schema tree during the build; the tree
state is abstracted to the sequence of operations applied to it, since the
bodies of the mutating methods live in schemanode.py (absent from src). -/
inductive BuildOp where
  | handleSubstatements (mid : ModuleId) (stmt : Statement)
  | augmentStmt (mid : ModuleId) (aug : Statement)
  | postProcess
  | makeSchemaPatterns

/-- Schema context (schemadata.py): schema data, default namespace, and the
module supplying the statement text. -/
structure SchemaContext where
  schema_data : SchemaData
  default_ns : String
  text_mid : ModuleId

/-- Modelled from the spec: handle_substatements (schemanode.py, absent from
src) instantiates the top-level schema nodes of one module into the tree
(pass 1); recorded here as an operation applied to the tree state. -/
def handle_substatements (schema : List BuildOp) (stmt : Statement)
    (sctx : SchemaContext) : List BuildOp :=
  schema ++ [.handleSubstatements sctx.text_mid stmt]

/-- Modelled from the spec: augment_stmt (schemanode.py, absent from src)
applies one augment statement against the tree (pass 2); recorded here as an
operation applied to the tree state. -/
def augment_stmt (schema : List BuildOp) (aug : Statement)
    (sctx : SchemaContext) : List BuildOp :=
  schema ++ [.augmentStmt sctx.text_mid aug]

/-- Modelled from the spec: post_process (schemanode.py, absent from src)
resolves forward references and finalizes flags; recorded as an operation. -/
def post_process (schema : List BuildOp) : List BuildOp :=
  schema ++ [.postProcess]

/-- Modelled from the spec: make_schema_patterns (schemanode.py, absent from
src) materializes the lexical constraints; recorded as an operation. -/
def make_schema_patterns (schema : List BuildOp) : List BuildOp :=
  schema ++ [.makeSchemaPatterns]

/-- DataModel._build_schema (datamodel.py), state-passing form: one loop over
the module sequence calling handle_substatements, a second loop over the
module sequence applying every augment substatement of each module, then
post_process and make_schema_patterns. -/
def DataModel.build_schema (schema : List BuildOp) (schema_data : SchemaData) :
    List BuildOp :=
  let s1 := schema_data.module_sequence.foldl
    (fun sch mid =>
      handle_substatements sch (schema_data.modules mid)
        ⟨schema_data, schema_data.namespaces mid, mid⟩)
    schema
  let s2 := schema_data.module_sequence.foldl
    (fun sch mid =>
      ((schema_data.modules mid).find_all "augment").foldl
        (fun sch2 aug =>
          augment_stmt sch2 aug ⟨schema_data, schema_data.namespaces mid, mid⟩)
        sch)
    s1
  make_schema_patterns (post_process s2)

/-- Errors the file-reading prologue of main (json_schema.py) catches. -/
inductive ReadErr where
  | fileNotFound (msg : String)
  | permissionError (msg : String)

/-- Message text of a read error. -/
def ReadErr.msg : ReadErr → String
  | .fileNotFound m => m
  | .permissionError m => m

/-- Observable outcome of the command-line wrapper: a numeric exit code with
an optional single-line diagnostic, or an uncaught exception. -/
inductive MainOutcome where
  | exit (code : Nat) (diag : Option String)
  | uncaught (exn : String)

/-- Exit code of an outcome, none when an exception escapes. -/
def MainOutcome.code : MainOutcome → Option Nat
  | .exit c _ => some c
  | .uncaught _ => none

/-- Diagnostic line of an outcome. -/
def MainOutcome.diag : MainOutcome → Option String
  | .exit _ d => d
  | .uncaught _ => none

/-- Diagnostic printed by the except chain of main (json_schema.py), one
kind-specific prefix followed by the exception message. -/
def buildDiag : YangsonError → String
  | .BadYangLibraryData m => "Invalid YANG library: " ++ m
  | .FeaturePrerequisiteError m => "Unsupported pre-requisite feature: " ++ m
  | .MultipleImplementedRevisions m => "Multiple implemented revisions: " ++ m
  | .ModuleNotFound m => "Module not found: " ++ m
  | .ModuleNotRegistered m => "Module not registered: " ++ m

/-- The except chain around DataModel construction in main (json_schema.py):
every one of the five caught error kinds prints its diagnostic and returns
exit code 2. -/
def handleBuildError (e : YangsonError) : MainOutcome :=
  .exit 2 (some (buildDiag e))

/-- Python attribute lookup on a DataModel instance: __init__ (datamodel.py)
assigns datastores, description and yang_library; the class further provides
the methods from_file, content_id and _build_schema.  No attribute is named
schema (the class annotations alone create no attribute). -/
inductive DMAttr where
  | datastoresAttr (v : List (String × Datastore))
  | descriptionAttr (v : Option String)
  | yangLibraryAttr (v : List (String × JValue))
  | boundMethod (name : String)

/-- Attribute lookup on a DataModel, none modelling AttributeError. -/
def DataModel.getattr (dm : DataModel) (name : String) : Option DMAttr :=
  if name == "datastores" then some (.datastoresAttr dm.datastores)
  else if name == "description" then some (.descriptionAttr dm.description)
  else if name == "yang_library" then some (.yangLibraryAttr dm.yang_library)
  else if ["from_file", "content_id", "_build_schema"].contains name then
    some (.boundMethod name)
  else none

/-- main (json_schema.py) as a function of the outcomes of its effectful
steps: a failed file read prints a diagnostic and returns 1; a construction
failure is handled by the except chain (exit 2); on success the source
evaluates walk(dm.schema), an attribute access on the DataModel: if it fails
the exception escapes, otherwise the JSON Schema would be printed and 0
returned. -/
def JsonSchema.main (read : Except ReadErr LibText) (path : List String) :
    MainOutcome :=
  match read with
  | .error e => .exit 1 (some ("YANG library: " ++ e.msg))
  | .ok yl =>
    match DataModel.init yl path none with
    | .error e => handleBuildError e
    | .ok dm =>
      match dm.getattr "schema" with
      | none => .uncaught "AttributeError: DataModel object has no attribute schema"
      | some _ => .exit 0 none

/-- Regular expressions over characters, with character classes given as
decidable predicates; the language semantics is the standard one, computed by
Brzozowski derivatives below. -/
inductive Regex where
  | emp
  | eps
  | cls (p : Char → Bool)
  | cat (a b : Regex)
  | alt (a b : Regex)
  | star (a : Regex)

/-- Whether the empty string belongs to the language of a regex. -/
def Regex.nullable : Regex → Bool
  | .emp => false
  | .eps => true
  | .cls _ => false
  | .cat a b => a.nullable && b.nullable
  | .alt a b => a.nullable || b.nullable
  | .star _ => true

/-- Brzozowski derivative of a regex by one character. -/
def Regex.deriv : Regex → Char → Regex
  | .emp, _ => .emp
  | .eps, _ => .emp
  | .cls p, c => if p c then .eps else .emp
  | .cat a b, c =>
    if a.nullable then .alt (.cat (a.deriv c) b) (b.deriv c)
    else .cat (a.deriv c) b
  | .alt a b, c => .alt (a.deriv c) (b.deriv c)
  | .star a, c => .cat (a.deriv c) (.star a)

/-- Whether the regex matches some prefix of the character list, the
anchored-at-the-start semantics of re.match in Python. -/
def pymatchList : Regex → List Char → Bool
  | r, [] => r.nullable
  | r, c :: cs => r.nullable || pymatchList (r.deriv c) cs

/-- re.match semantics on a string: does the regex match at position 0. -/
def Regex.pymatch (r : Regex) (s : String) : Bool :=
  pymatchList r s.data

/-- Single-character regex. -/
def chr (c : Char) : Regex := .cls (fun x => x == c)

/-- First character of a YANG identifier: a letter or underscore, from the
pattern fragment of constants.py. -/
def identStartChar (c : Char) : Bool := c.isAlpha || c == '_'

/-- Continuation character of a YANG identifier: letter, digit, underscore,
dot or hyphen, from the pattern fragment of constants.py. -/
def identChar (c : Char) : Bool :=
  c.isAlphanum || c == '_' || c == '.' || c == '-'

/-- Whitespace as matched by a backslash-s class in a Python pattern: space,
tab, newline, carriage return, vertical tab, form feed. -/
def isPySpace (c : Char) : Bool :=
  c == ' ' || c == '\t' || c == '\n' || c == '\r' || c == '\x0b' || c == '\x0c'

/-- The single-quote character, written by code point. -/
def squote : Char := Char.ofNat 39

/-- Identifier pattern of constants.py. -/
def identRe : Regex := .cat (.cls identStartChar) (.star (.cls identChar))

/-- Optionally prefixed name pattern of constants.py: an optional identifier
followed by a colon, then the local identifier. -/
def pnameRe : Regex :=
  .cat (.alt (.cat identRe (chr ':')) .eps) identRe

/-- Quoted right-hand side of a predicate, from constants.py: a double-quoted
run without double quotes, or a single-quoted run without single quotes. -/
def rhsRe : Regex :=
  .alt
    (.cat (chr '"') (.cat (.star (.cls (fun c => !(c == '"')))) (chr '"')))
    (.cat (chr squote)
      (.cat (.star (.cls (fun c => !(c == squote)))) (chr squote)))

/-- Run of whitespace. -/
def wsStar : Regex := .star (.cls isPySpace)

/-- The equality alternative of the predicate pattern of constants.py: a
prefixed name or a dot, whitespace, an equals sign, whitespace, then the
quoted literal. -/
def eqTestRe : Regex :=
  .cat (.alt pnameRe (chr '.'))
    (.cat wsStar (.cat (chr '=') (.cat wsStar rhsRe)))

/-- pred_re of constants.py: an opening bracket, whitespace, then either the
equality alternative or a run of zero or more digits (the pos group), then
whitespace and the closing bracket. -/
def pred_re : Regex :=
  .cat (chr '[')
    (.cat wsStar
      (.cat (.alt eqTestRe (.star (.cls Char.isDigit)))
        (.cat wsStar (chr ']'))))

/-- integer_re of constants.py: one or more decimal digits. -/
def integer_re : Regex :=
  .cat (.cls Char.isDigit) (.star (.cls Char.isDigit))

/-- Result of parsing an instance identifier: the list of raw steps. -/
abbrev InstanceRoute := List String

/-- Syntax error raised by a path parser: offending offset and expectation. -/
structure ParseError where
  offset : Nat
  message : String

/-- Modelled from the spec: InstanceIdParser.parse (instance.py, absent from
src) parses an absolute instance identifier, a pure function of the input
text; abstracted here to splitting an absolute path into its steps, failing
with a position-annotated syntax error when the text does not start with a
slash. -/
def InstanceIdParser.parse (text : String) : Except ParseError InstanceRoute :=
  if text.startsWith "/" then .ok ((text.drop 1).splitOn "/")
  else .error ⟨0, "expected a slash"⟩

/-- Datastore.parse_instance_id (datamodel.py): a static method, so the bound
instance is ignored and the result depends on the text alone. -/
def Datastore.parse_instance_id (_ds : Datastore) (text : String) :
    Except ParseError InstanceRoute :=
  InstanceIdParser.parse text

/-- Sample library input: a parsed top-level object carrying the
modules-state marker with an empty value, on which construction succeeds. -/
def sampleLib : LibText :=
  .parsed [("ietf-yang-library:modules-state", .obj [])]

/-- The DataModel built from the sample library input. -/
def sampleDM : DataModel :=
  match DataModel.init sampleLib ["."] none with
  | .ok dm => dm
  | .error _ => ⟨[], none, []⟩

/-- Helper: setting a key in an association list makes lookup of that key
return the new value. -/
theorem alistGet_alistSet {α : Type} (l : List (String × α)) (k : String)
    (v : α) : alistGet (alistSet l k v) k = some v := by
  induction l with
  | nil => simp [alistSet, alistGet]
  | cons hd tl ih =>
    obtain ⟨k1, v1⟩ := hd
    by_cases h : k1 = k
    · simp [alistSet, alistGet, h]
    · simp [alistSet, alistGet, h, ih]

/-- Helper: walking a concatenated route is walking the first part and then
the second from wherever the first ended. -/
theorem walkRoute_append (p q : Route) (s : SchemaNode) :
    walkRoute s (p ++ q) = (walkRoute s p).bind (fun n => walkRoute n q) := by
  induction p generalizing s with
  | nil => simp [walkRoute]
  | cons hd tl ih =>
    obtain ⟨name, ns⟩ := hd
    simp only [List.cons_append, walkRoute]
    cases h : s.get_data_child name ns with
    | none => simp
    | some c => simp [ih]

/-- Helper: a fold that appends one element per item is an append of a map. -/
theorem foldl_snoc_map {α β : Type} (f : α → β) (l : List α) (init : List β) :
    l.foldl (fun s x => s ++ [f x]) init = init ++ l.map f := by
  induction l generalizing init with
  | nil => simp
  | cons hd tl ih => simp [List.foldl_cons, ih, List.append_assoc]

/-- Helper: a nested fold that appends one element per inner item is an
append of a bind of maps. -/
theorem foldl_snoc_bind {α β γ : Type} (g : α → List β) (h : α → β → γ)
    (l : List α) (init : List γ) :
    l.foldl (fun s m => (g m).foldl (fun s2 a => s2 ++ [h m a]) s) init
      = init ++ l.flatMap (fun m => (g m).map (h m)) := by
  induction l generalizing init with
  | nil => simp
  | cons hd tl ih =>
    simp [List.foldl_cons, foldl_snoc_map (h hd) (g hd) init, ih,
      List.append_assoc]

/-- Helper: two strings with distinct characters at a common position stay
distinct under any suffixes. -/
theorem string_append_ne (p q m m2 : String) (i : Nat)
    (hp : i < p.data.length) (hq : i < q.data.length)
    (hne : p.data.get ⟨i, hp⟩ ≠ q.data.get ⟨i, hq⟩) : p ++ m ≠ q ++ m2 := by
  intro h
  apply hne
  have hd : p.data ++ m.data = q.data ++ m2.data := by
    have hc := congrArg String.data h
    simpa [String.data_append] using hc
  have hbp : i < (p.data ++ m.data).length := by
    rw [List.length_append]; omega
  have hbq : i < (q.data ++ m2.data).length := by
    rw [List.length_append]; omega
  have h1 : (p.data ++ m.data).get ⟨i, hbp⟩ = p.data.get ⟨i, hp⟩ :=
    List.get_append_left _ _ _
  have h2 : (q.data ++ m2.data).get ⟨i, hbq⟩ = q.data.get ⟨i, hq⟩ :=
    List.get_append_left _ _ _
  have h3 := List.get_of_eq hd ⟨i, hbp⟩
  exact h1.symm.trans (h3.trans h2)

/-- C1: For every Datastore, regardless of whether its content type is Config
or All, the schema digest is a JSON document whose member "config" is the
boolean true; in particular the "operational" datastore with content type All
also reports config true. -/
theorem schema_digest_config_true (ds : Datastore) :
    jGet ds.schema_digest "config" = some (JValue.bool true) := by
  simp [Datastore.schema_digest, jGet, alistGet_alistSet]

/-- C10: content_id returns the constant string TODO for every DataModel, so
two DataModels built from different library data receive equal content ids. -/
theorem content_id_constant (dm1 dm2 : DataModel) :
    dm1.content_id = "TODO" ∧ dm1.content_id = dm2.content_id :=
  ⟨rfl, rfl⟩

/-- C8: parse_instance_id is a static method depending on the input text
alone: for any two Datastores, whatever their schemas and content types, and
every input string, the results are equal. -/
theorem parse_instance_id_datastore_independent (d1 d2 : Datastore)
    (s : String) : d1.parse_instance_id s = d2.parse_instance_id s := rfl

/-- C4: get_data_node steps from the schema root one route segment at a time;
when the child lookup of an intermediate segment yields no node, the result is
absent (none) immediately, whatever the remaining segments are, with no
error raised. -/
theorem get_data_node_short_circuit (ds : Datastore) (pre : Route)
    (n : SchemaNode) (name ns : String) (rest : Route)
    (h1 : walkRoute ds.schema pre = some n)
    (h2 : n.get_data_child name ns = none) :
    ds.get_data_node (pre ++ (name, ns) :: rest) = none := by
  unfold Datastore.get_data_node
  rw [walkRoute_append, h1]
  simp [walkRoute, h2]

/-- Witness for C4: on a datastore with an empty schema tree, a two-segment
route fails at the first segment and yields none. -/
theorem get_data_node_short_circuit_witness :
    Datastore.get_data_node
      ⟨ContentType.config, SchemaNode.mk "" "" true [],
        SchemaData.make [] ["."]⟩
      [("x", "n1"), ("y", "n2")] = none :=
  get_data_node_short_circuit
    ⟨ContentType.config, SchemaNode.mk "" "" true [], SchemaData.make [] ["."]⟩
    [] (SchemaNode.mk "" "" true []) "x" "n1" [("y", "n2")] rfl rfl

/-- C5: the build performs its phases strictly in order: the trace of
operations applied to the tree is first one instantiation per module over the
whole module sequence in order (pass 1), only then every module's augment
statements over the full sequence (pass 2), and post-processing and pattern
compilation come last. -/
theorem build_schema_phase_order (start : List BuildOp) (sd : SchemaData) :
    DataModel.build_schema start sd =
      start
      ++ sd.module_sequence.map
           (fun mid => BuildOp.handleSubstatements mid (sd.modules mid))
      ++ sd.module_sequence.flatMap
           (fun mid => ((sd.modules mid).find_all "augment").map
             (fun aug => BuildOp.augmentStmt mid aug))
      ++ [BuildOp.postProcess, BuildOp.makeSchemaPatterns] := by
  have e1 := foldl_snoc_map
    (fun mid => BuildOp.handleSubstatements mid (sd.modules mid))
    sd.module_sequence start
  have e2 := foldl_snoc_bind
    (fun mid => (sd.modules mid).find_all "augment")
    (fun mid aug => BuildOp.augmentStmt mid aug)
    sd.module_sequence
    (start ++ sd.module_sequence.map
      (fun mid => BuildOp.handleSubstatements mid (sd.modules mid)))
  calc
    DataModel.build_schema start sd
        = (sd.module_sequence.foldl
            (fun sch mid =>
              ((sd.modules mid).find_all "augment").foldl
                (fun sch2 aug => sch2 ++ [BuildOp.augmentStmt mid aug]) sch)
            (sd.module_sequence.foldl
              (fun sch mid =>
                sch ++ [BuildOp.handleSubstatements mid (sd.modules mid)])
              start))
          ++ [BuildOp.postProcess] ++ [BuildOp.makeSchemaPatterns] := rfl
    _ = _ := by
      rw [e1, e2]
      simp [List.append_assoc]

/-- C2 counterexample: a syntactically malformed library text and a valid but
markerless one fail with the SAME error kind (BadYangLibraryData), so the two
failure outcomes are not distinguishable by kind, contrary to the claim. -/
theorem dm_init_error_kinds_coincide :
    initErrKind (DataModel.init (.malformed "Expecting value") ["."] none)
        = initErrKind (DataModel.init (.parsed []) ["."] none)
      ∧ initErrKind (DataModel.init (.malformed "Expecting value") ["."] none)
        = some "BadYangLibraryData" :=
  ⟨rfl, rfl⟩

/-- C2 amended: both failures raise the one kind BadYangLibraryData; the
decode failure carries the decoder message and the missing marker carries the
fixed message "top-level member not recognized", so the caller can tell the
outcomes apart only by message text, not by error kind. -/
theorem dm_init_failures_same_kind (e : String) (kvs : List (String × JValue))
    (mp : List String) (d : Option String)
    (h : alistGet kvs "ietf-yang-library:modules-state" = none) :
    DataModel.init (.malformed e) mp d
        = .error (.BadYangLibraryData e)
      ∧ DataModel.init (.parsed kvs) mp d
        = .error (.BadYangLibraryData "top-level member not recognized") := by
  constructor
  · rfl
  · simp [DataModel.init, h]

/-- Witness for the amended C2 at a concrete malformed text and the concrete
empty object. -/
theorem dm_init_failures_same_kind_witness :
    DataModel.init (.malformed "bad") ["."] none
        = .error (.BadYangLibraryData "bad")
      ∧ DataModel.init (.parsed []) ["."] none
        = .error (.BadYangLibraryData "top-level member not recognized") :=
  dm_init_failures_same_kind "bad" [] ["."] none rfl

/-- C3: whenever construction succeeds, the datastores mapping has exactly the
two entries "config" (content type Config) and "operational" (content type
All), and the two Datastores hold the same schema tree and the same schema
data (one shared value, not copies). -/
theorem dm_init_datastores_shape (t : LibText) (mp : List String)
    (d : Option String) (dm : DataModel)
    (h : DataModel.init t mp d = .ok dm) :
    dm.datastores.map Prod.fst = ["config", "operational"]
      ∧ ∃ cfg opr,
          alistGet dm.datastores "config" = some cfg
          ∧ alistGet dm.datastores "operational" = some opr
          ∧ cfg.content_type = ContentType.config
          ∧ opr.content_type = ContentType.all
          ∧ cfg.schema = opr.schema
          ∧ cfg.schema_data = opr.schema_data := by
  cases t with
  | malformed e => simp [DataModel.init] at h
  | parsed kvs =>
    by_cases hk : (alistGet kvs "ietf-yang-library:modules-state").isSome
    · simp only [DataModel.init, hk, if_true] at h
      injection h with h2
      subst h2
      refine ⟨rfl,
        ⟨ContentType.config, buildRoot (SchemaData.make kvs mp),
          SchemaData.make kvs mp⟩,
        ⟨ContentType.all, buildRoot (SchemaData.make kvs mp),
          SchemaData.make kvs mp⟩,
        ?_, ?_, rfl, rfl, rfl, rfl⟩ <;> rfl
    · simp [DataModel.init, hk] at h

/-- Witness for C3 at a concrete library input carrying the marker. -/
theorem dm_init_datastores_shape_witness :
    ∃ dm, DataModel.init sampleLib ["."] none = .ok dm
      ∧ dm.datastores.map Prod.fst = ["config", "operational"] :=
  ⟨sampleDM, rfl,
    (dm_init_datastores_shape sampleLib ["."] none sampleDM rfl).1⟩

/-- C6 counterexample: the pos alternative of pred_re is a run of ZERO or more
digits, so the bracket pair with empty content is a predicate token match,
contrary to the claim. -/
theorem pred_re_accepts_empty_brackets :
    Regex.pymatch pred_re "[]" = true := by decide

/-- C6 amended: the positional alternative of pred_re matches bracketed
content of zero or more decimal digits, possibly surrounded by whitespace;
empty and whitespace-only bracket pairs are matches, a non-digit bare content
is not, the equality alternative still works, while the separate integer_re
does require one or more digits. -/
theorem pred_re_positional_zero_or_more :
    Regex.pymatch pred_re "[]" = true
      ∧ Regex.pymatch pred_re "[ ]" = true
      ∧ Regex.pymatch pred_re "[0]" = true
      ∧ Regex.pymatch pred_re "[ 42 ]" = true
      ∧ Regex.pymatch pred_re "[a]" = false
      ∧ Regex.pymatch pred_re "[name=\"eth0\"]" = true
      ∧ Regex.pymatch integer_re "" = false
      ∧ Regex.pymatch integer_re "42" = true := by
  refine ⟨?_, ?_, ?_, ?_, ?_, ?_, ?_, ?_⟩ <;> decide

/-- C7 counterexample: two distinct build-time error kinds are mapped by the
except chain of main to the same exit code 2. -/
theorem main_exit_codes_shared :
    (handleBuildError (.BadYangLibraryData "bad")).code = some 2
      ∧ (handleBuildError (.ModuleNotFound "foo")).code = some 2
      ∧ YangsonError.kindName (.BadYangLibraryData "bad")
          ≠ YangsonError.kindName (.ModuleNotFound "foo") := by
  refine ⟨rfl, rfl, ?_⟩
  decide

/-- C7 amended: the wrapper maps every one of the five build-time error kinds
to the SAME exit code 2, not to distinct codes; the kinds are told apart by
the single-line diagnostic alone, whose kind-specific prefix makes diagnostics
of different kinds distinct for all messages. -/
theorem build_errors_same_code_distinct_diag :
    (∀ e : YangsonError, (handleBuildError e).code = some 2)
      ∧ (∀ e1 e2 : YangsonError,
          e1.kindName = e2.kindName ∨ buildDiag e1 ≠ buildDiag e2) := by
  constructor
  · intro e; cases e <;> rfl
  · intro e1 e2
    cases e1 <;> cases e2 <;>
      first
        | exact Or.inl rfl
        | exact Or.inr
            (string_append_ne _ _ _ _ 0 (by decide) (by decide) (by decide))
        | exact Or.inr
            (string_append_ne _ _ _ _ 1 (by decide) (by decide) (by decide))
        | exact Or.inr
            (string_append_ne _ _ _ _ 11 (by decide) (by decide) (by decide))

/-- C9: on every library input on which the DataModel is built successfully,
main does not print the schema and return 0: the attribute access dm.schema
fails, because DataModel instances have no attribute named schema, and the
AttributeError escapes uncaught. -/
theorem main_success_path_uncaught (t : LibText) (mp : List String)
    (dm : DataModel) (h : DataModel.init t mp none = .ok dm) :
    JsonSchema.main (.ok t) mp
      = .uncaught "AttributeError: DataModel object has no attribute schema" := by
  have hg : dm.getattr "schema" = none := rfl
  simp [JsonSchema.main, h, hg]

/-- Witness for C9 at a concrete library input carrying the marker. -/
theorem main_success_path_uncaught_witness :
    JsonSchema.main (.ok sampleLib) ["."]
      = .uncaught "AttributeError: DataModel object has no attribute schema" :=
  main_success_path_uncaught sampleLib ["."] sampleDM rfl
